import Mathlib

/-!
Verification of the relationship-pair logic of `family_tree_app.py`
(SQLite-backed Streamlit family-tree builder).

The embedding models the `relationships` table as a list of edge records in
insertion (rowid / created_at) order, together with the AUTOINCREMENT counter
for the next relationship id, and the `family_members` table as a list of
member records (only the columns the modelled logic reads: `id`, `user_id`;
the descriptive columns — names, dates, places, occupation, notes, positions —
are never consulted by any relationship or generation computation).
-/

/-- One row of the `relationships` table. -/
structure Edge where
  id : Nat
  user_id : Nat
  from_member_id : Nat
  to_member_id : Nat
  relationship_type : String
  notes : String
  is_primary : Bool
  linked_relationship_id : Option Nat
deriving Repr, DecidableEq

/-- One row of the `family_members` table (columns the logic reads). -/
structure Member where
  id : Nat
  user_id : Nat
deriving Repr, DecidableEq

/-- The database: `family_members` rows, `relationships` rows in insertion
order, and the AUTOINCREMENT counter for the next relationship id. -/
structure DB where
  members : List Member
  edges : List Edge
  next_id : Nat
deriving Repr, DecidableEq

/-- The duplicate-check predicate of `add_relationship` (lines 253-263):
the edge belongs to `user_id` and joins the two given members in either
direction. -/
def edge_connects (e : Edge) (user_id a b : Nat) : Bool :=
  e.user_id == user_id &&
    ((e.from_member_id == a && e.to_member_id == b) ||
     (e.from_member_id == b && e.to_member_id == a))

/-- `get_inverse_relationship` (lines 231-246): dictionary lookup with
default `"other"`. -/
def get_inverse_relationship (relationship_type : String) : String :=
  if relationship_type = "spouse" then "spouse"
  else if relationship_type = "parent" then "child"
  else if relationship_type = "child" then "parent"
  else if relationship_type = "sibling" then "sibling"
  else if relationship_type = "grandparent" then "grandchild"
  else if relationship_type = "grandchild" then "grandparent"
  else if relationship_type = "aunt-uncle" then "niece-nephew"
  else if relationship_type = "niece-nephew" then "aunt-uncle"
  else if relationship_type = "cousin" then "cousin"
  else if relationship_type = "in-law" then "in-law"
  else if relationship_type = "other" then "other"
  else "other"

/-- The condition of line 283 under which the inverse edge is inserted:
`relationship_type != inverse_type or relationship_type in
['spouse', 'sibling', 'cousin']`. -/
def materializes_inverse (relationship_type : String) : Bool :=
  relationship_type != get_inverse_relationship relationship_type ||
    (["spouse", "sibling", "cousin"] : List String).contains relationship_type

/-- `add_relationship` (lines 248-295): duplicate check in either direction,
then insert of the primary row and, under the line-283 condition, of the
linked inverse row.  Returns the Python function's return value (`True` /
`False`) together with the resulting database state. -/
def add_relationship (user_id from_member_id to_member_id : Nat)
    (relationship_type : String) (notes : String) (db : DB) : Bool × DB :=
  if db.edges.any (fun e => edge_connects e user_id from_member_id to_member_id) then
    (false, db)
  else
    let primary_id := db.next_id
    let primary : Edge :=
      { id := primary_id, user_id := user_id, from_member_id := from_member_id,
        to_member_id := to_member_id, relationship_type := relationship_type,
        notes := notes, is_primary := true, linked_relationship_id := none }
    let inverse_type := get_inverse_relationship relationship_type
    if relationship_type != inverse_type ||
        (["spouse", "sibling", "cousin"] : List String).contains relationship_type then
      let inverse_edge : Edge :=
        { id := primary_id + 1, user_id := user_id, from_member_id := to_member_id,
          to_member_id := from_member_id, relationship_type := inverse_type,
          notes := notes, is_primary := false, linked_relationship_id := some primary_id }
      (true, { db with edges := db.edges ++ [primary, inverse_edge],
                       next_id := primary_id + 2 })
    else
      (true, { db with edges := db.edges ++ [primary],
                       next_id := primary_id + 1 })

/-- `delete_relationship` (lines 297-326): look the row up by id in scope;
if primary, delete it and every row whose `linked_relationship_id` equals it;
if derived, delete it and the row whose id is its `linked_relationship_id`
(a NULL `linked_relationship_id` matches no row, as `id = NULL` holds of no
row in SQL); if the id is not found, do nothing. -/
def delete_relationship (user_id relationship_id : Nat) (db : DB) : DB :=
  match db.edges.find? (fun e => e.user_id == user_id && e.id == relationship_id) with
  | none => db
  | some e =>
    if e.is_primary then
      { db with edges := db.edges.filter (fun x =>
          !(x.user_id == user_id &&
            (x.id == relationship_id || x.linked_relationship_id == some relationship_id))) }
    else
      match e.linked_relationship_id with
      | some linked_id =>
        { db with edges := db.edges.filter (fun x =>
            !(x.user_id == user_id && (x.id == relationship_id || x.id == linked_id))) }
      | none =>
        { db with edges := db.edges.filter (fun x =>
            !(x.user_id == user_id && x.id == relationship_id)) }

/-- `delete_family_member` (lines 211-229): delete every relationship row of
the scope whose `from_member_id` or `to_member_id` is the member, then the
member row itself. -/
def delete_family_member (user_id member_id : Nat) (db : DB) : DB :=
  { db with
    edges := db.edges.filter (fun e =>
      !(e.user_id == user_id &&
        (e.from_member_id == member_id || e.to_member_id == member_id))),
    members := db.members.filter (fun m =>
      !(m.user_id == user_id && m.id == member_id)) }

/-- `get_user_relationships` (lines 134-152): the user's relationship rows,
inner-joined against `family_members` on both endpoints, in creation order. -/
def get_user_relationships (user_id : Nat) (db : DB) : List Edge :=
  db.edges.filter (fun e =>
    e.user_id == user_id &&
    db.members.any (fun m => m.id == e.from_member_id) &&
    db.members.any (fun m => m.id == e.to_member_id))

/-- The `is_primary` slice of the user's relationships, as used by the
relationship list, the graph edges and the statistics (e.g. lines 351, 727). -/
def primary_relationships (user_id : Nat) (db : DB) : List Edge :=
  (get_user_relationships user_id db).filter (fun e => e.is_primary)

/-- Statistics page, lines 850-853: primary rows of type `parent`. -/
def parent_relationships (user_id : Nat) (db : DB) : List Edge :=
  (get_user_relationships user_id db).filter (fun e =>
    e.relationship_type == "parent" && e.is_primary)

/-- Statistics page, line 855: `to_member_id` of every primary parent row. -/
def children_ids (user_id : Nat) (db : DB) : List Nat :=
  (parent_relationships user_id db).map (fun e => e.to_member_id)

/-- Statistics page, line 856: the ids of the user's members. -/
def all_member_ids (user_id : Nat) (db : DB) : List Nat :=
  (db.members.filter (fun m => m.user_id == user_id)).map (fun m => m.id)

/-- Statistics page, line 857: members that are never the target of a
primary parent edge (`all_member_ids - children_ids`). -/
def root_generation (user_id : Nat) (db : DB) : List Nat :=
  (all_member_ids user_id db).filter (fun m => !((children_ids user_id db).contains m))

/-- Statistics page, lines 866-868: targets of the primary parent edges whose
source lies in the root generation. -/
def children_of_root (user_id : Nat) (db : DB) : List Nat :=
  ((parent_relationships user_id db).filter (fun e =>
      (root_generation user_id db).contains e.from_member_id)).map
    (fun e => e.to_member_id)

/-- The options of the `to_member` selectbox (line 705): every member id
except the one chosen as `from_member`. -/
def to_member_options (member_ids : List Nat) (from_member : Nat) : List Nat :=
  member_ids.filter (fun m => m != from_member)

/-- The AUTOINCREMENT freshness invariant of the `relationships` table:
every stored id, and every stored `linked_relationship_id`, is below the
next id SQLite will assign.  Every reachable database state satisfies it. -/
def wf_db (db : DB) : Bool :=
  db.edges.all (fun e =>
    e.id < db.next_id &&
    (match e.linked_relationship_id with
     | none => true
     | some l => l < db.next_id))

/-- Pair shape invariant of a scope: a derived edge's linked primary has the
same endpoints in the opposite direction.  `add_relationship` creates every
linked pair in this shape. -/
def pairs_consistent (user_id : Nat) (db : DB) : Bool :=
  db.edges.all (fun d =>
    if d.user_id == user_id then
      match d.linked_relationship_id with
      | none => true
      | some l =>
        db.edges.all (fun p =>
          !(p.user_id == user_id && p.id == l) ||
          (p.from_member_id == d.to_member_id && p.to_member_id == d.from_member_id))
    else true)

/-- Modelled from the spec: the spec's `deleteRelationship(edgeId) ->
Result<(), NotFound>` fails with `NotFound` when the id does not exist in
scope, and otherwise performs the paired deletion.  (The Python function has
no such error channel; this reference definition is used to compare the code
against the spec's words.) -/
def deleteRelationship_spec (user_id relationship_id : Nat) (db : DB) :
    Except String DB :=
  if db.edges.any (fun e => e.user_id == user_id && e.id == relationship_id) then
    Except.ok (delete_relationship user_id relationship_id db)
  else
    Except.error "NotFound"

/-- The C5 scenario: one scope with members A=1, B=2, C=3, D=4 and the
relationships created by adding parent(A→B), parent(A→C), parent(C→D). -/
def exampleDB : DB :=
  (add_relationship 1 3 4 "parent" ""
    (add_relationship 1 1 3 "parent" ""
      (add_relationship 1 1 2 "parent" ""
        ⟨[⟨1, 1⟩, ⟨2, 1⟩, ⟨3, 1⟩, ⟨4, 1⟩], [], 1⟩).snd).snd).snd

/-- The spec-level statement "some edge already connects the two members in
either direction, within the scope" (the condition of the duplicate check). -/
def connected (db : DB) (user_id a b : Nat) : Prop :=
  ∃ e ∈ db.edges, e.user_id = user_id ∧
    ((e.from_member_id = a ∧ e.to_member_id = b) ∨
     (e.from_member_id = b ∧ e.to_member_id = a))

instance (db : DB) (user_id a b : Nat) : Decidable (connected db user_id a b) := by
  unfold connected
  infer_instance

lemma connected_iff_any (db : DB) (user_id a b : Nat) :
    connected db user_id a b ↔
      db.edges.any (fun e => edge_connects e user_id a b) = true := by
  simp [connected, edge_connects, List.any_eq_true, Bool.and_eq_true,
    Bool.or_eq_true, beq_iff_eq]

/-- A fixed small scope: members 1 and 2 with one parent pair between them. -/
def db_AB : DB :=
  (add_relationship 1 1 2 "parent" "" ⟨[⟨1, 1⟩, ⟨2, 1⟩], [], 1⟩).snd

/-- C1: in every scope, once any edge connects two distinct members in either
direction, `add_relationship` between them fails (returns `False`,
surfaced as `DuplicateRelationship`), regardless of the new type. -/
theorem duplicate_edge_rejects_add (db : DB) (user_id a b : Nat)
    (t n : String) (hab : a ≠ b) (hconn : connected db user_id a b) :
    (add_relationship user_id a b t n db).fst = false := by
  rw [connected_iff_any] at hconn
  simp [add_relationship, hconn]

/-- C1 witness: after `add_relationship(A,B,"parent")` succeeds in a fresh
scope, both `add_relationship(B,A,"child")` and
`add_relationship(A,B,"sibling")` are rejected. -/
theorem duplicate_edge_rejects_add_witness :
    (((2 : Nat) ≠ 1 ∧ connected db_AB 1 2 1) ∧
      (add_relationship 1 2 1 "child" "" db_AB).fst = false) ∧
    (((1 : Nat) ≠ 2 ∧ connected db_AB 1 1 2) ∧
      (add_relationship 1 1 2 "sibling" "" db_AB).fst = false) :=
  ⟨⟨⟨by decide, by decide⟩,
      duplicate_edge_rejects_add db_AB 1 2 1 "child" "" (by decide) (by decide)⟩,
   ⟨⟨by decide, by decide⟩,
      duplicate_edge_rejects_add db_AB 1 1 2 "sibling" "" (by decide) (by decide)⟩⟩

/-- C10: when the duplicate check fires, `add_relationship` returns with the
stored relationship set completely unchanged — no insertion, no deletion. -/
theorem failed_add_preserves_db (db : DB) (user_id a b : Nat)
    (t n : String) (hconn : connected db user_id a b) :
    add_relationship user_id a b t n db = (false, db) := by
  rw [connected_iff_any] at hconn
  simp [add_relationship, hconn]

/-- C10 witness: a duplicate `add_relationship` call on the concrete scope
leaves the database exactly as it was. -/
theorem failed_add_preserves_db_witness :
    connected db_AB 1 1 2 ∧
      add_relationship 1 1 2 "cousin" "x" db_AB = (false, db_AB) :=
  ⟨by decide, failed_add_preserves_db db_AB 1 1 2 "cousin" "x" (by decide)⟩

/-- C7 (amended): `add_relationship` returns a boolean success flag — `True`
exactly when no edge already connects the two members — not the id of the
inserted primary edge. -/
theorem add_relationship_success_iff_no_duplicate (db : DB)
    (user_id a b : Nat) (t n : String) :
    (add_relationship user_id a b t n db).fst = true ↔
      ¬ connected db user_id a b := by
  rw [connected_iff_any]
  cases h : db.edges.any (fun e => edge_connects e user_id a b) <;>
    simp [add_relationship, h] <;> split <;> simp

/-- C7 counterexample: two successful `add_relationship` calls whose primary
edges receive the distinct ids 1 and 3, yet both calls return the same value
`True` — the return value is a success flag, not the primary edge id. -/
theorem add_relationship_returns_flag_not_id_cex :
    (add_relationship 1 1 2 "parent" "" ⟨[⟨1, 1⟩, ⟨2, 1⟩, ⟨3, 1⟩, ⟨4, 1⟩], [], 1⟩).fst
        = true ∧
    (add_relationship 1 3 4 "parent" ""
        (add_relationship 1 1 2 "parent" ""
          ⟨[⟨1, 1⟩, ⟨2, 1⟩, ⟨3, 1⟩, ⟨4, 1⟩], [], 1⟩).snd).fst = true ∧
    (∃ e ∈ (add_relationship 1 1 2 "parent" ""
        ⟨[⟨1, 1⟩, ⟨2, 1⟩, ⟨3, 1⟩, ⟨4, 1⟩], [], 1⟩).snd.edges,
      e.is_primary = true ∧ e.from_member_id = 1 ∧ e.to_member_id = 2 ∧ e.id = 1) ∧
    (∃ e ∈ (add_relationship 1 3 4 "parent" ""
        (add_relationship 1 1 2 "parent" ""
          ⟨[⟨1, 1⟩, ⟨2, 1⟩, ⟨3, 1⟩, ⟨4, 1⟩], [], 1⟩).snd).snd.edges,
      e.is_primary = true ∧ e.from_member_id = 3 ∧ e.to_member_id = 4 ∧ e.id = 3) := by
  decide

/-- C8 (amended): `delete_relationship` with an id that exists nowhere in the
scope is a silent no-op — the database is returned unchanged and no failure
is reported (the function has no error channel). -/
theorem delete_relationship_missing_id_noop (db : DB) (user_id rid : Nat)
    (h : ∀ e ∈ db.edges, e.user_id = user_id → e.id ≠ rid) :
    delete_relationship user_id rid db = db := by
  have hf : db.edges.find? (fun e => e.user_id == user_id && e.id == rid) = none := by
    rw [List.find?_eq_none]
    intro e he
    simp only [Bool.and_eq_true, beq_iff_eq, not_and]
    exact h e he
  simp [delete_relationship, hf]

/-- C8 amended-claim witness: deleting the absent id 99 from the concrete
scope returns it unchanged. -/
theorem delete_relationship_missing_id_noop_witness :
    (∀ e ∈ db_AB.edges, e.user_id = 1 → e.id ≠ 99) ∧
      delete_relationship 1 99 db_AB = db_AB :=
  ⟨by decide, delete_relationship_missing_id_noop db_AB 1 99 (by decide)⟩

/-- C8 counterexample: on the concrete scope, deleting the nonexistent id 99
does not fail — the call is indistinguishable from doing nothing — while the
spec's `deleteRelationship` contract demands the error `NotFound` there. -/
theorem delete_relationship_missing_id_silent_cex :
    delete_relationship 1 99 db_AB = db_AB ∧
      deleteRelationship_spec 1 99 db_AB = Except.error "NotFound" :=
  ⟨rfl, rfl⟩

/-- C9 (amended): the relationship form's second-person selectbox excludes
the chosen first person, so every UI-submitted request has distinct members;
the storage function itself performs no self check. -/
theorem to_member_options_excludes_self (member_ids : List Nat)
    (from_member m : Nat) (h : m ∈ to_member_options member_ids from_member) :
    m ≠ from_member := by
  simp only [to_member_options, List.mem_filter, bne_iff_ne, ne_eq] at h
  exact h.2

/-- C9 amended-claim witness: member 2 is offered as a partner for member 1
and is indeed distinct from it. -/
theorem to_member_options_excludes_self_witness :
    (2 ∈ to_member_options [1, 2] 1) ∧ (2 : Nat) ≠ 1 :=
  ⟨by decide, to_member_options_excludes_self [1, 2] 1 2 (by decide)⟩

/-- C9 counterexample: called directly with `from_member_id = to_member_id`,
`add_relationship` performs no self check: it succeeds and stores a
self-relationship edge, so self requests are not rejected with an error
before storage. -/
theorem self_relationship_not_rejected_cex :
    (add_relationship 1 5 5 "parent" "" ⟨[⟨5, 1⟩], [], 1⟩).fst = true ∧
    ∃ e ∈ (add_relationship 1 5 5 "parent" "" ⟨[⟨5, 1⟩], [], 1⟩).snd.edges,
      e.from_member_id = 5 ∧ e.to_member_id = 5 := by
  decide

lemma nat_contains_iff (l : List Nat) (a : Nat) : l.contains a = true ↔ a ∈ l := by
  simp [List.contains_iff_exists_mem_beq]

/-- C6: the inverse lookup realizes the full table and maps every string
outside the closed enumeration to `other`. -/
theorem inverse_relationship_table :
    (get_inverse_relationship "parent" = "child" ∧
     get_inverse_relationship "child" = "parent" ∧
     get_inverse_relationship "grandparent" = "grandchild" ∧
     get_inverse_relationship "grandchild" = "grandparent" ∧
     get_inverse_relationship "aunt-uncle" = "niece-nephew" ∧
     get_inverse_relationship "niece-nephew" = "aunt-uncle" ∧
     get_inverse_relationship "in-law" = "in-law" ∧
     get_inverse_relationship "spouse" = "spouse" ∧
     get_inverse_relationship "sibling" = "sibling" ∧
     get_inverse_relationship "cousin" = "cousin" ∧
     get_inverse_relationship "other" = "other") ∧
    ∀ s : String,
      s ∉ (["spouse", "parent", "child", "sibling", "grandparent", "grandchild",
            "aunt-uncle", "niece-nephew", "cousin", "in-law", "other"] : List String) →
      get_inverse_relationship s = "other" := by
  refine ⟨by decide, ?_⟩
  intro s hs
  simp only [List.mem_cons, List.not_mem_nil, or_false, not_or] at hs
  obtain ⟨h1, h2, h3, h4, h5, h6, h7, h8, h9, h10, h11⟩ := hs
  simp [get_inverse_relationship, h1, h2, h3, h4, h5, h6, h7, h8, h9, h10, h11]

/-- C5: the two computed generation tiers.  Root generation membership is
"a member of the scope that is never the target of a primary parent edge";
next-generation membership is "target of a primary parent edge whose source
is in the root generation"; on the scenario A=1,B=2,C=3,D=4 with
parent(A→B), parent(A→C), parent(C→D) the tiers are {A} and {B,C}, and D is
in neither. -/
theorem generation_inference_two_tiers :
    (∀ (db : DB) (user_id m : Nat),
      m ∈ root_generation user_id db ↔
        m ∈ all_member_ids user_id db ∧
          ∀ e ∈ parent_relationships user_id db, e.to_member_id ≠ m) ∧
    (∀ (db : DB) (user_id c : Nat),
      c ∈ children_of_root user_id db ↔
        ∃ e ∈ parent_relationships user_id db,
          e.from_member_id ∈ root_generation user_id db ∧ e.to_member_id = c) ∧
    (root_generation 1 exampleDB = [1] ∧
     children_of_root 1 exampleDB = [2, 3] ∧
     4 ∉ root_generation 1 exampleDB ∧ 4 ∉ children_of_root 1 exampleDB) := by
  refine ⟨?_, ?_, by decide, by decide, by decide, by decide⟩
  · intro db user_id m
    constructor
    · rintro hm
      rw [root_generation, List.mem_filter, Bool.not_eq_true'] at hm
      refine ⟨hm.1, fun e he hem => ?_⟩
      have hmem : m ∈ children_ids user_id db := by
        rw [children_ids, List.mem_map]
        exact ⟨e, he, hem⟩
      rw [← nat_contains_iff, hm.2] at hmem
      cases hmem
    · rintro ⟨h1, h2⟩
      rw [root_generation, List.mem_filter, Bool.not_eq_true']
      refine ⟨h1, ?_⟩
      cases hc : (children_ids user_id db).contains m with
      | false => rfl
      | true =>
        rw [nat_contains_iff, children_ids, List.mem_map] at hc
        obtain ⟨e, he, hte⟩ := hc
        exact absurd hte (h2 e he)
  · intro db user_id c
    rw [children_of_root, List.mem_map]
    constructor
    · rintro ⟨e, he, hte⟩
      rw [List.mem_filter] at he
      exact ⟨e, he.1, (nat_contains_iff _ _).mp he.2, hte⟩
    · rintro ⟨e, he, hroot, hte⟩
      exact ⟨e, List.mem_filter.mpr ⟨he, (nat_contains_iff _ _).mpr hroot⟩, hte⟩

/-- The primary row inserted by `add_relationship` (lines 269-277). -/
def primary_row (user_id a b : Nat) (t n : String) (nid : Nat) : Edge :=
  ⟨nid, user_id, a, b, t, n, true, none⟩

/-- The inverse row inserted by `add_relationship` (lines 282-291). -/
def inverse_row (user_id a b : Nat) (t n : String) (nid : Nat) : Edge :=
  ⟨nid + 1, user_id, b, a, get_inverse_relationship t, n, false, some nid⟩

lemma add_relationship_eq_of_not_dup (user_id a b : Nat) (t n : String) (db : DB)
    (hdup : db.edges.any (fun e => edge_connects e user_id a b) = false) :
    add_relationship user_id a b t n db =
      if materializes_inverse t then
        (true, ⟨db.members,
          db.edges ++ [primary_row user_id a b t n db.next_id,
            inverse_row user_id a b t n db.next_id], db.next_id + 2⟩)
      else
        (true, ⟨db.members,
          db.edges ++ [primary_row user_id a b t n db.next_id],
          db.next_id + 1⟩) := by
  rw [add_relationship, if_neg (by simp [hdup]), materializes_inverse,
    primary_row, inverse_row]

/-- C2: a successful `add_relationship(A,B,type)` appends exactly one primary
edge A→B of the given type (with the fresh id), followed by a derived edge
B→A of the inverse type linked to it exactly when the line-283 condition
(`type != inverse(type)` or `type ∈ {spouse, sibling, cousin}`) holds, and
nothing else. -/
theorem add_relationship_inserts_pair (db : DB) (user_id a b : Nat)
    (t n : String) (hs : (add_relationship user_id a b t n db).fst = true) :
    ∃ p rest,
      (add_relationship user_id a b t n db).snd.edges = db.edges ++ p :: rest ∧
      p.id = db.next_id ∧ p.user_id = user_id ∧ p.from_member_id = a ∧
      p.to_member_id = b ∧ p.relationship_type = t ∧ p.is_primary = true ∧
      p.linked_relationship_id = none ∧
      (materializes_inverse t = true →
        ∃ d, rest = [d] ∧ d.id = db.next_id + 1 ∧ d.user_id = user_id ∧
          d.from_member_id = b ∧ d.to_member_id = a ∧
          d.relationship_type = get_inverse_relationship t ∧
          d.is_primary = false ∧
          d.linked_relationship_id = some db.next_id) ∧
      (materializes_inverse t = false → rest = []) := by
  have hdup : db.edges.any (fun e => edge_connects e user_id a b) = false := by
    cases hd : db.edges.any (fun e => edge_connects e user_id a b) with
    | false => rfl
    | true => rw [add_relationship, if_pos hd] at hs; cases hs
  rw [add_relationship_eq_of_not_dup user_id a b t n db hdup]
  cases hm : materializes_inverse t with
  | true =>
    rw [if_pos rfl]
    exact ⟨primary_row user_id a b t n db.next_id,
      [inverse_row user_id a b t n db.next_id],
      rfl, rfl, rfl, rfl, rfl, rfl, rfl, rfl,
      fun _ => ⟨inverse_row user_id a b t n db.next_id,
        rfl, rfl, rfl, rfl, rfl, rfl, rfl, rfl⟩,
      fun hc => absurd hc (by decide)⟩
  | false =>
    rw [if_neg (by decide)]
    exact ⟨primary_row user_id a b t n db.next_id, [],
      rfl, rfl, rfl, rfl, rfl, rfl, rfl, rfl,
      fun hc => absurd hc (by decide),
      fun _ => rfl⟩

/-- C2 witness: adding an `other` relationship (self-inverse, not in the
materialize-both-ways set) to a fresh scope appends only the primary edge. -/
theorem add_relationship_inserts_pair_witness :
    (add_relationship 1 1 2 "other" "" ⟨[⟨1, 1⟩, ⟨2, 1⟩], [], 1⟩).fst = true ∧
    ∃ p rest,
      (add_relationship 1 1 2 "other" ""
          ⟨[⟨1, 1⟩, ⟨2, 1⟩], [], 1⟩).snd.edges =
        (⟨[⟨1, 1⟩, ⟨2, 1⟩], [], 1⟩ : DB).edges ++ p :: rest ∧
      p.id = (⟨[⟨1, 1⟩, ⟨2, 1⟩], [], 1⟩ : DB).next_id ∧ p.user_id = 1 ∧
      p.from_member_id = 1 ∧ p.to_member_id = 2 ∧
      p.relationship_type = "other" ∧ p.is_primary = true ∧
      p.linked_relationship_id = none ∧
      (materializes_inverse "other" = true →
        ∃ d, rest = [d] ∧ d.id = (⟨[⟨1, 1⟩, ⟨2, 1⟩], [], 1⟩ : DB).next_id + 1 ∧
          d.user_id = 1 ∧ d.from_member_id = 2 ∧ d.to_member_id = 1 ∧
          d.relationship_type = get_inverse_relationship "other" ∧
          d.is_primary = false ∧
          d.linked_relationship_id = some (⟨[⟨1, 1⟩, ⟨2, 1⟩], [], 1⟩ : DB).next_id) ∧
      (materializes_inverse "other" = false → rest = []) :=
  ⟨by decide, add_relationship_inserts_pair ⟨[⟨1, 1⟩, ⟨2, 1⟩], [], 1⟩ 1 1 2 "other" ""
    (by decide)⟩

lemma wf_db_ids (db : DB) (h : wf_db db = true) :
    ∀ e ∈ db.edges, e.id < db.next_id := by
  intro e he
  rw [wf_db, List.all_eq_true] at h
  have h1 := h e he
  rw [Bool.and_eq_true] at h1
  exact of_decide_eq_true h1.1

lemma wf_db_linked (db : DB) (h : wf_db db = true) :
    ∀ e ∈ db.edges, ∀ l, e.linked_relationship_id = some l → l < db.next_id := by
  intro e he l hl
  rw [wf_db, List.all_eq_true] at h
  have h1 := h e he
  rw [Bool.and_eq_true, hl] at h1
  exact of_decide_eq_true h1.2

lemma find_none_of_fresh (E : List Edge) (user_id rid nid : Nat) (hle : nid ≤ rid)
    (h : ∀ e ∈ E, e.id < nid) :
    E.find? (fun e => e.user_id == user_id && e.id == rid) = none := by
  rw [List.find?_eq_none]
  intro e he
  simp only [Bool.and_eq_true, beq_iff_eq, not_and]
  intro _
  exact Nat.ne_of_lt (Nat.lt_of_lt_of_le (h e he) hle)

lemma filter_keep_of_fresh_pair (E : List Edge) (user_id nid rid : Nat)
    (hle : nid ≤ rid) (hids : ∀ e ∈ E, e.id < nid)
    (hlinked : ∀ e ∈ E, ∀ l, e.linked_relationship_id = some l → l < nid) :
    E.filter (fun x => !(x.user_id == user_id &&
      (x.id == rid || x.linked_relationship_id == some rid))) = E := by
  rw [List.filter_eq_self]
  intro e he
  have h1 : (e.id == rid) = false :=
    beq_eq_false_iff_ne.mpr (Nat.ne_of_lt (Nat.lt_of_lt_of_le (hids e he) hle))
  have h2 : (e.linked_relationship_id == some rid) = false := by
    rw [beq_eq_false_iff_ne]
    intro hx
    exact absurd (Nat.lt_of_lt_of_le (hlinked e he rid hx) hle) (Nat.lt_irrefl rid)
  simp [h1, h2]

lemma filter_keep_of_fresh_two (E : List Edge) (user_id nid r1 r2 : Nat)
    (hle1 : nid ≤ r1) (hle2 : nid ≤ r2) (hids : ∀ e ∈ E, e.id < nid) :
    E.filter (fun x => !(x.user_id == user_id && (x.id == r1 || x.id == r2))) = E := by
  rw [List.filter_eq_self]
  intro e he
  have k1 : (e.id == r1) = false :=
    beq_eq_false_iff_ne.mpr (Nat.ne_of_lt (Nat.lt_of_lt_of_le (hids e he) hle1))
  have k2 : (e.id == r2) = false :=
    beq_eq_false_iff_ne.mpr (Nat.ne_of_lt (Nat.lt_of_lt_of_le (hids e he) hle2))
  simp [k1, k2]

lemma delete_relationship_of_find_primary (user_id rid : Nat) (db : DB) (e : Edge)
    (hf : db.edges.find? (fun x => x.user_id == user_id && x.id == rid) = some e)
    (hp : e.is_primary = true) :
    delete_relationship user_id rid db =
      ⟨db.members, db.edges.filter (fun x => !(x.user_id == user_id &&
        (x.id == rid || x.linked_relationship_id == some rid))), db.next_id⟩ := by
  unfold delete_relationship
  split
  · next heq => rw [hf] at heq; cases heq
  · next e' heq =>
    rw [hf] at heq
    injection heq with he'
    subst he'
    rw [if_pos hp]

lemma delete_relationship_of_find_derived (user_id rid : Nat) (db : DB)
    (e : Edge) (lid : Nat)
    (hf : db.edges.find? (fun x => x.user_id == user_id && x.id == rid) = some e)
    (hp : e.is_primary = false)
    (hl : e.linked_relationship_id = some lid) :
    delete_relationship user_id rid db =
      ⟨db.members, db.edges.filter (fun x => !(x.user_id == user_id &&
        (x.id == rid || x.id == lid))), db.next_id⟩ := by
  unfold delete_relationship
  split
  · next heq => rw [hf] at heq; cases heq
  · next e' heq =>
    rw [hf] at heq
    injection heq with he'
    subst he'
    rw [if_neg (by rw [hp]; exact Bool.false_ne_true)]
    split
    · next lid' heq2 =>
      rw [hl] at heq2
      injection heq2 with h
      subst h
      rfl
    · next heq2 => rw [hl] at heq2; cases heq2

lemma delete_primary_of_pair (db : DB) (user_id a b : Nat) (t n : String)
    (hwf : wf_db db = true) :
    (delete_relationship user_id db.next_id
      ⟨db.members, db.edges ++ [primary_row user_id a b t n db.next_id,
        inverse_row user_id a b t n db.next_id], db.next_id + 2⟩).edges = db.edges := by
  have hids := wf_db_ids db hwf
  have hlinked := wf_db_linked db hwf
  have hfind : (db.edges ++ [primary_row user_id a b t n db.next_id,
      inverse_row user_id a b t n db.next_id]).find?
      (fun x => x.user_id == user_id && x.id == db.next_id) =
      some (primary_row user_id a b t n db.next_id) := by
    rw [List.find?_append,
      find_none_of_fresh db.edges user_id db.next_id db.next_id le_rfl hids,
      Option.none_or]
    simp [primary_row, List.find?_cons]
  rw [delete_relationship_of_find_primary user_id db.next_id _ _ hfind rfl]
  dsimp only
  rw [List.filter_append,
    filter_keep_of_fresh_pair db.edges user_id db.next_id db.next_id le_rfl hids hlinked]
  simp [primary_row, inverse_row, List.filter]

lemma delete_derived_of_pair (db : DB) (user_id a b : Nat) (t n : String)
    (hwf : wf_db db = true) :
    (delete_relationship user_id (db.next_id + 1)
      ⟨db.members, db.edges ++ [primary_row user_id a b t n db.next_id,
        inverse_row user_id a b t n db.next_id], db.next_id + 2⟩).edges = db.edges := by
  have hids := wf_db_ids db hwf
  have hfind : (db.edges ++ [primary_row user_id a b t n db.next_id,
      inverse_row user_id a b t n db.next_id]).find?
      (fun x => x.user_id == user_id && x.id == db.next_id + 1) =
      some (inverse_row user_id a b t n db.next_id) := by
    rw [List.find?_append,
      find_none_of_fresh db.edges user_id (db.next_id + 1) db.next_id
        (Nat.le_succ _) hids,
      Option.none_or]
    simp [primary_row, inverse_row, List.find?_cons]
  rw [delete_relationship_of_find_derived user_id (db.next_id + 1) _
    (inverse_row user_id a b t n db.next_id) db.next_id hfind rfl rfl]
  dsimp only
  rw [List.filter_append,
    filter_keep_of_fresh_two db.edges user_id db.next_id (db.next_id + 1) db.next_id
      (Nat.le_succ _) le_rfl hids]
  simp [primary_row, inverse_row, List.filter]

lemma delete_primary_single (db : DB) (user_id a b : Nat) (t n : String)
    (hwf : wf_db db = true) :
    (delete_relationship user_id db.next_id
      ⟨db.members, db.edges ++ [primary_row user_id a b t n db.next_id],
        db.next_id + 1⟩).edges = db.edges := by
  have hids := wf_db_ids db hwf
  have hlinked := wf_db_linked db hwf
  have hfind : (db.edges ++ [primary_row user_id a b t n db.next_id]).find?
      (fun x => x.user_id == user_id && x.id == db.next_id) =
      some (primary_row user_id a b t n db.next_id) := by
    rw [List.find?_append,
      find_none_of_fresh db.edges user_id db.next_id db.next_id le_rfl hids,
      Option.none_or]
    simp [primary_row, List.find?_cons]
  rw [delete_relationship_of_find_primary user_id db.next_id _ _ hfind rfl]
  dsimp only
  rw [List.filter_append,
    filter_keep_of_fresh_pair db.edges user_id db.next_id db.next_id le_rfl hids hlinked]
  simp [primary_row, List.filter]

lemma mem_primary_relationships (user_id : Nat) (db : DB) (e : Edge)
    (h : e ∈ primary_relationships user_id db) :
    e ∈ db.edges ∧ e.user_id = user_id := by
  rw [primary_relationships, List.mem_filter, get_user_relationships,
    List.mem_filter] at h
  obtain ⟨⟨he, hcond⟩, -⟩ := h
  rw [Bool.and_eq_true, Bool.and_eq_true] at hcond
  exact ⟨he, beq_iff_eq.mp hcond.1.1⟩

/-- C3: after a successful `add_relationship(A,B,type)`, deleting by the
primary edge's id — or, when a derived edge was materialized, by the derived
edge's id — removes the whole pair: no edge of the scope connects A and B in
either direction afterwards, and in particular the primary-edge view contains
neither A→B nor B→A. -/
theorem delete_either_edge_removes_pair (db : DB) (user_id a b : Nat)
    (t n : String) (hwf : wf_db db = true)
    (hs : (add_relationship user_id a b t n db).fst = true) :
    (∀ e ∈ (delete_relationship user_id db.next_id
        (add_relationship user_id a b t n db).snd).edges,
      edge_connects e user_id a b = false) ∧
    (materializes_inverse t = true →
      ∀ e ∈ (delete_relationship user_id (db.next_id + 1)
          (add_relationship user_id a b t n db).snd).edges,
        edge_connects e user_id a b = false) ∧
    (∀ e ∈ primary_relationships user_id (delete_relationship user_id db.next_id
        (add_relationship user_id a b t n db).snd),
      ¬((e.from_member_id = a ∧ e.to_member_id = b) ∨
        (e.from_member_id = b ∧ e.to_member_id = a))) := by
  have hdup : db.edges.any (fun e => edge_connects e user_id a b) = false := by
    cases hd : db.edges.any (fun e => edge_connects e user_id a b) with
    | false => rfl
    | true => rw [add_relationship, if_pos hd] at hs; cases hs
  have hconn : ∀ e ∈ db.edges, edge_connects e user_id a b = false := by
    rw [List.any_eq_false] at hdup
    intro e he
    cases hx : edge_connects e user_id a b with
    | false => rfl
    | true => exact absurd hx (hdup e he)
  have hprim : (delete_relationship user_id db.next_id
      (add_relationship user_id a b t n db).snd).edges = db.edges := by
    rw [add_relationship_eq_of_not_dup user_id a b t n db hdup]
    cases hm : materializes_inverse t with
    | true =>
      rw [if_pos rfl]
      exact delete_primary_of_pair db user_id a b t n hwf
    | false =>
      rw [if_neg (by decide)]
      exact delete_primary_single db user_id a b t n hwf
  have hder : materializes_inverse t = true →
      (delete_relationship user_id (db.next_id + 1)
        (add_relationship user_id a b t n db).snd).edges = db.edges := by
    intro hm
    rw [add_relationship_eq_of_not_dup user_id a b t n db hdup, if_pos hm]
    exact delete_derived_of_pair db user_id a b t n hwf
  refine ⟨?_, ?_, ?_⟩
  · intro e he
    rw [hprim] at he
    exact hconn e he
  · intro hm e he
    rw [hder hm] at he
    exact hconn e he
  · intro e he hor
    obtain ⟨hmem, huid⟩ := mem_primary_relationships user_id _ e he
    rw [hprim] at hmem
    have hc := hconn e hmem
    rcases hor with ⟨h1, h2⟩ | ⟨h1, h2⟩ <;>
      simp [edge_connects, huid, h1, h2] at hc

/-- C3 witness: in a fresh scope, adding parent(1→2) and then deleting by
either id of the created pair leaves no edge connecting 1 and 2. -/
theorem delete_either_edge_removes_pair_witness :
    (wf_db ⟨[⟨1, 1⟩, ⟨2, 1⟩], [], 1⟩ = true ∧
     (add_relationship 1 1 2 "parent" "" ⟨[⟨1, 1⟩, ⟨2, 1⟩], [], 1⟩).fst = true) ∧
    ((∀ e ∈ (delete_relationship 1 (⟨[⟨1, 1⟩, ⟨2, 1⟩], [], 1⟩ : DB).next_id
        (add_relationship 1 1 2 "parent" "" ⟨[⟨1, 1⟩, ⟨2, 1⟩], [], 1⟩).snd).edges,
      edge_connects e 1 1 2 = false) ∧
    (materializes_inverse "parent" = true →
      ∀ e ∈ (delete_relationship 1 ((⟨[⟨1, 1⟩, ⟨2, 1⟩], [], 1⟩ : DB).next_id + 1)
          (add_relationship 1 1 2 "parent" "" ⟨[⟨1, 1⟩, ⟨2, 1⟩], [], 1⟩).snd).edges,
        edge_connects e 1 1 2 = false) ∧
    (∀ e ∈ primary_relationships 1
        (delete_relationship 1 (⟨[⟨1, 1⟩, ⟨2, 1⟩], [], 1⟩ : DB).next_id
          (add_relationship 1 1 2 "parent" "" ⟨[⟨1, 1⟩, ⟨2, 1⟩], [], 1⟩).snd),
      ¬((e.from_member_id = 1 ∧ e.to_member_id = 2) ∨
        (e.from_member_id = 2 ∧ e.to_member_id = 1)))) :=
  ⟨⟨by decide, by decide⟩,
    delete_either_edge_removes_pair ⟨[⟨1, 1⟩, ⟨2, 1⟩], [], 1⟩ 1 1 2 "parent" ""
      (by decide) (by decide)⟩

lemma pairs_consistent_spec (user_id : Nat) (db : DB)
    (h : pairs_consistent user_id db = true) :
    ∀ d ∈ db.edges, d.user_id = user_id →
      ∀ l, d.linked_relationship_id = some l →
        ∀ p ∈ db.edges, p.user_id = user_id → p.id = l →
          p.from_member_id = d.to_member_id ∧ p.to_member_id = d.from_member_id := by
  intro d hd hdu l hl p hp hpu hpl
  rw [pairs_consistent, List.all_eq_true] at h
  have h1 := h d hd
  rw [if_pos (by rw [hdu]; exact beq_self_eq_true user_id), hl,
    List.all_eq_true] at h1
  have h2 := h1 p hp
  rw [Bool.or_eq_true] at h2
  rcases h2 with h2 | h2
  · rw [Bool.not_eq_true', Bool.and_eq_false_iff] at h2
    rcases h2 with h2 | h2
    · exact absurd (beq_iff_eq.mpr hpu) (by rw [h2]; exact Bool.false_ne_true)
    · exact absurd (beq_iff_eq.mpr hpl) (by rw [h2]; exact Bool.false_ne_true)
  · rw [Bool.and_eq_true, beq_iff_eq, beq_iff_eq] at h2
    exact h2

lemma mem_delete_family_member (user_id member_id : Nat) (db : DB) (e : Edge)
    (h : e ∈ (delete_family_member user_id member_id db).edges) :
    e ∈ db.edges ∧ (e.user_id = user_id →
      e.from_member_id ≠ member_id ∧ e.to_member_id ≠ member_id) := by
  rw [delete_family_member] at h
  dsimp only at h
  rw [List.mem_filter, Bool.not_eq_true'] at h
  refine ⟨h.1, fun heu => ?_⟩
  have h2 := h.2
  rw [heu] at h2
  simp only [beq_self_eq_true, Bool.true_and, Bool.or_eq_false_iff] at h2
  exact ⟨beq_eq_false_iff_ne.mp h2.1, beq_eq_false_iff_ne.mp h2.2⟩

/-- C4: deleting member P removes, within the scope, every relationship edge
whose `from_member_id` or `to_member_id` is P, and leaves no derived edge
whose linked primary referenced P. -/
theorem delete_family_member_cascades (db : DB) (user_id pid : Nat)
    (hpair : pairs_consistent user_id db = true) :
    (∀ e ∈ (delete_family_member user_id pid db).edges, e.user_id = user_id →
      e.from_member_id ≠ pid ∧ e.to_member_id ≠ pid) ∧
    (∀ d ∈ (delete_family_member user_id pid db).edges, d.user_id = user_id →
      ∀ l, d.linked_relationship_id = some l →
        ∀ p ∈ db.edges, p.user_id = user_id → p.id = l →
          p.from_member_id ≠ pid ∧ p.to_member_id ≠ pid) := by
  refine ⟨?_, ?_⟩
  · intro e he heu
    exact (mem_delete_family_member user_id pid db e he).2 heu
  · intro d hd hdu l hl p hp hpu hpl
    obtain ⟨hdmem, hdno⟩ := mem_delete_family_member user_id pid db d hd
    obtain ⟨hfrom, hto⟩ := hdno hdu
    obtain ⟨hpf, hpt⟩ :=
      pairs_consistent_spec user_id db hpair d hdmem hdu l hl p hp hpu hpl
    rw [hpf, hpt]
    exact ⟨hto, hfrom⟩

/-- C4 witness: in the concrete scope with one parent pair between members 1
and 2, deleting member 1 removes every edge touching it and orphans nothing. -/
theorem delete_family_member_cascades_witness :
    pairs_consistent 1 db_AB = true ∧
    ((∀ e ∈ (delete_family_member 1 1 db_AB).edges, e.user_id = 1 →
      e.from_member_id ≠ 1 ∧ e.to_member_id ≠ 1) ∧
    (∀ d ∈ (delete_family_member 1 1 db_AB).edges, d.user_id = 1 →
      ∀ l, d.linked_relationship_id = some l →
        ∀ p ∈ db_AB.edges, p.user_id = 1 → p.id = l →
          p.from_member_id ≠ 1 ∧ p.to_member_id ≠ 1)) :=
  ⟨by decide, delete_family_member_cascades db_AB 1 1 (by decide)⟩
